import Mathlib

/-!
Shallow embedding of the AI-movie-search backend
(`app/services/query_translator.py`, `app/services/tmdb_service.py`,
`app/main.py`).

Strings are modelled as `List Char` internally (Python `str` over the
ASCII inputs the translator handles); Python dicts of string parameters
are association lists in insertion order, since Python dicts preserve
insertion order and `d[k] = v` updates the value in place.  Network
calls are modelled by explicit outcome parameters (an `Option`- or
`Except`-valued oracle), so a function that Python would let raise is a
total Lean function over every outcome.  Floats are modelled as exact
rationals.
-/

namespace MovieSearch

/-- Python `str.lower()` restricted to ASCII (the inputs handled by the
rule engine are ASCII). -/
def pyLower (s : List Char) : List Char := s.map Char.toLower

/-- Python whitespace for `str.strip()` / `str.split()`. -/
def pyIsSpace (c : Char) : Bool :=
  c == ' ' || c == '\t' || c == '\n' || c == '\r' || c == '\x0b' || c == '\x0c'

/-- Python `str.strip()`. -/
def pyStrip (s : List Char) : List Char :=
  ((s.dropWhile pyIsSpace).reverse.dropWhile pyIsSpace).reverse

/-- `p` is a prefix of `s` (Boolean, executable). -/
def listIsPrefix : List Char → List Char → Bool
  | [], _ => true
  | _ :: _, [] => false
  | a :: as, b :: bs => a == b && listIsPrefix as bs

/-- Python `needle in hay` (substring containment). -/
def containsSub (needle : List Char) : List Char → Bool
  | [] => needle.isEmpty
  | c :: t => listIsPrefix needle (c :: t) || containsSub needle t

/-- The text after the last occurrence of `sep` in `s`
(`none` when `sep` does not occur). -/
def afterLastAux (sep : List Char) : List Char → Option (List Char)
  | [] => if sep.isEmpty then some [] else none
  | c :: t =>
    match afterLastAux sep t with
    | some r => some r
    | none =>
      if listIsPrefix sep (c :: t) then some ((c :: t).drop sep.length) else none

/-- Python `s.split(sep)[-1]`: the text after the last occurrence of
`sep`, or all of `s` when `sep` does not occur. -/
def afterLast (sep s : List Char) : List Char := (afterLastAux sep s).getD s

/-- Python `s.split(sep)[0]`: the text before the first occurrence of
`sep`, or all of `s` when `sep` does not occur. -/
def beforeFirst (sep : List Char) : List Char → List Char
  | [] => []
  | c :: t => if listIsPrefix sep (c :: t) then [] else c :: beforeFirst sep t

/-- Helper for `wordsOf`: `cur` is the reversed current word. -/
def wordsOfAux (cur : List Char) : List Char → List (List Char)
  | [] => if cur.isEmpty then [] else [cur.reverse]
  | c :: t =>
    if pyIsSpace c then
      if cur.isEmpty then wordsOfAux [] t else cur.reverse :: wordsOfAux [] t
    else wordsOfAux (c :: cur) t

/-- Python `s.split()` with no argument: split on whitespace runs,
dropping empty chunks. -/
def wordsOf (s : List Char) : List (List Char) := wordsOfAux [] s

/-- Python regex word character (ASCII fragment of `\w`). -/
def isWordChar (c : Char) : Bool := c.isAlphanum || c == '_'

/-- Does the regex `\b(19|20)\d{2}\b` match at the start of `s`, where
`prev` is the character just before `s` (`none` at the string edge)?
Returns the four matched characters. -/
def yearAt (prev : Option Char) (s : List Char) : Option (List Char) :=
  match s with
  | c1 :: c2 :: c3 :: c4 :: rest =>
    let okPre := (c1 == '1' && c2 == '9') || (c1 == '2' && c2 == '0')
    let okDig := c3.isDigit && c4.isDigit
    let okL := match prev with | none => true | some p => !isWordChar p
    let okR := match rest with | [] => true | r :: _ => !isWordChar r
    if okPre && okDig && okL && okR then some [c1, c2, c3, c4] else none
  | _ => none

/-- `re.search(r'\b(19|20)\d{2}\b', s)` scanning left to right;
`prev` is the character before the current position. -/
def findYear (prev : Option Char) : List Char → Option (List Char)
  | [] => none
  | c :: t =>
    match yearAt prev (c :: t) with
    | some y => some y
    | none => findYear (some c) t

/-- Python `str.title()` restricted to ASCII: uppercase a letter that
follows a non-letter, lowercase a letter that follows a letter. -/
def pyTitleAux (prevAlpha : Bool) : List Char → List Char
  | [] => []
  | c :: t =>
    (if c.isAlpha then (if prevAlpha then c.toLower else c.toUpper) else c)
      :: pyTitleAux c.isAlpha t

/-- Python `str.title()` (ASCII fragment). -/
def pyTitle (s : List Char) : List Char := pyTitleAux false s

/-- Python `str.isdigit()` (ASCII fragment): nonempty and all digits. -/
def pyIsDigit (s : List Char) : Bool := !s.isEmpty && s.all Char.isDigit

/-- Python `" ".join`. -/
def joinWords (ws : List (List Char)) : List Char := List.intercalate [' '] ws

/-- Dict lookup `d.get(k)` / `k in d` on an association list
(first occurrence; Python dicts never hold duplicate keys). -/
def dictGet (k : String) : List (String × String) → Option String
  | [] => none
  | (k', v) :: t => if k' = k then some v else dictGet k t

/-- Python `d[k] = v`: update the value in place when the key is
present, append otherwise (insertion order preserved). -/
def dictSet (k v : String) : List (String × String) → List (String × String)
  | [] => [(k, v)]
  | (k', v') :: t => if k' = k then (k', v) :: t else (k', v') :: dictSet k v t

/-- Python `del d[k]`: drop the key.  A Python dict never holds a
duplicate key, so dropping every occurrence from the association list
coincides with it on all states the code can reach. -/
def dictErase (k : String) : List (String × String) → List (String × String)
  | [] => []
  | (k', v') :: t => if k' = k then dictErase k t else (k', v') :: dictErase k t

/-- The structured intent `{"search_type": ..., "params": ...}` returned
by the translator: `params` is a Python dict of string parameters. -/
structure Intent where
  search_type : String
  params : List (String × String)
deriving DecidableEq, Repr

/-- The static genre table of `QueryTranslator.__init__`, in insertion
order (name to TMDB id). -/
def genre_map : List (String × Nat) :=
  [("action", 28), ("adventure", 12), ("animation", 16), ("comedy", 35),
   ("crime", 80), ("documentary", 99), ("drama", 18), ("family", 10751),
   ("fantasy", 14), ("history", 36), ("horror", 27), ("music", 10402),
   ("mystery", 9648), ("romance", 10749), ("science fiction", 878),
   ("sci-fi", 878), ("thriller", 53), ("war", 10752), ("western", 37)]

/-- Lookup in the genre table (Python `genre_name in self.genre_map` /
`self.genre_map[genre_name]`). -/
def genreLookup (name : List Char) : List (String × Nat) → Option Nat
  | [] => none
  | (n, i) :: t => if n.data = name then some i else genreLookup name t

/-- The title phrases of the short-circuit in `_translate_with_rules`,
in source order. -/
def titlePhrases : List (List Char) :=
  ["find movie".data, "movie called".data, "film called".data]

/-- The title short-circuit: the first phrase contained in the query
determines the extracted title `query.split(phrase)[-1].strip()`. -/
def titleShortCircuit (q : List Char) : Option (List Char) :=
  match titlePhrases.find? (fun p => containsSub p q) with
  | some p => some (pyStrip (afterLast p q))
  | none => none

/-- Genre detection: first genre of the table whose name (or its
`" movie"`/`" film"` variant) occurs in the query sets `with_genres`. -/
def genreStep (q : List Char) : List (String × String) :=
  match genre_map.find? (fun g =>
      containsSub g.1.data q || containsSub (g.1.data ++ " movie".data) q
        || containsSub (g.1.data ++ " film".data) q) with
  | some g => [("with_genres", toString g.2)]
  | none => []

/-- Year detection: `re.search(r'\b(19|20)\d{2}\b', query)` sets
`primary_release_year`. -/
def yearStep (q : List Char) (params : List (String × String)) :
    List (String × String) :=
  match findYear none q with
  | some y => dictSet "primary_release_year" (String.mk y) params
  | none => params

/-- Rating detection: any of the four phrases sets
`vote_average.gte = "7.5"`. -/
def ratingStep (q : List Char) (params : List (String × String)) :
    List (String × String) :=
  if containsSub "high rating".data q || containsSub "good rating".data q
      || containsSub "top rated".data q || containsSub "best".data q then
    dictSet "vote_average.gte" "7.5" params
  else params

/-- Actor detection: on a `"starring"` cue, extract the following text
up to `" in "`/`" from "`, accept it when at most 3 words, title-case
it into `with_cast`. -/
def actorStep (q : List Char) (params : List (String × String)) :
    List (String × String) :=
  if containsSub "starring".data q || containsSub "with ".data q then
    if containsSub "starring".data q then
      let actor_part := pyStrip (afterLast "starring".data q)
      let actor_name :=
        pyStrip (beforeFirst " from ".data (beforeFirst " in ".data actor_part))
      if (wordsOf actor_name).length ≤ 3 then
        dictSet "with_cast" (String.mk (pyTitle actor_name)) params
      else params
    else params
  else params

/-- The four independent detectors of `_translate_with_rules`, applied
in source order to an initially empty parameter dict. -/
def rulesParams (q : List Char) : List (String × String) :=
  actorStep q (ratingStep q (yearStep q (genreStep q)))

/-- The stop-word set of the keyword fallback. -/
def stop_words : List String :=
  ["the", "a", "an", "and", "or", "but", "in", "on", "at", "to", "for",
   "of", "with", "by", "from", "movies", "films", "movie", "film",
   "search", "find", "show", "me"]

/-- Keyword extraction: non-stop-words of length > 2 from the query. -/
def keywordStep (q : List Char) : List (List Char) :=
  (wordsOf q).filter
    (fun w => !stop_words.contains (String.mk w) && w.length > 2)

/-- `QueryTranslator._translate_with_rules`, the deterministic
fallback. -/
def translateWithRules (natural_query : String) : Intent :=
  let q := pyLower natural_query.data
  match titleShortCircuit q with
  | some title => ⟨"search", [("query", String.mk title)]⟩
  | none =>
    let params := rulesParams q
    if params = [] then
      match keywordStep q with
      | [] =>
        ⟨"discover", [("sort_by", "popularity.desc"), ("vote_count.gte", "200")]⟩
      | k :: ks => ⟨"search", [("query", String.mk (joinWords ((k :: ks).take 3)))]⟩
    else ⟨"discover", params⟩

/-- The part of `s` strictly after the first occurrence of `sep`
(`none` when `sep` does not occur). -/
def afterFirst (sep : List Char) : List Char → Option (List Char)
  | [] => if sep.isEmpty then some [] else none
  | c :: t =>
    if listIsPrefix sep (c :: t) then some ((c :: t).drop sep.length)
    else afterFirst sep t

/-- Split at the first occurrence of `sep`: the parts before and after
it (`none` when `sep` does not occur). -/
def splitAtFirst (sep : List Char) : List Char → Option (List Char × List Char)
  | [] => if sep.isEmpty then some ([], []) else none
  | c :: t =>
    if listIsPrefix sep (c :: t) then some ([], (c :: t).drop sep.length)
    else
      match splitAtFirst sep t with
      | some (pre, post) => some (c :: pre, post)
      | none => none

/-- `re.search(r'<type>(.*?)</type>', xml, re.DOTALL)` followed by
`.strip()`, with default `"search"`: the stripped text between the
first `<type>` and the first `</type>` after it. -/
def extractType (xml : List Char) : List Char :=
  match afterFirst "<type>".data xml with
  | none => "search".data
  | some rest =>
    match beforeFirstOpt "</type>".data rest with
    | none => "search".data
    | some content => pyStrip content
where
  /-- The text before the first occurrence of `sep`, `none` when `sep`
  does not occur (unlike `beforeFirst`, absence is observable). -/
  beforeFirstOpt (sep s : List Char) : Option (List Char) :=
    (splitAtFirst sep s).map Prod.fst

/-- One attempted match of `<param name="([^"]+)">(.*?)</param>` at the
start of `s`: the name group, the value group and the rest of the
input after `</param>`. -/
def tryParamAt (s : List Char) : Option (List Char × List Char × List Char) :=
  if listIsPrefix "<param name=\"".data s then
    let rest1 := s.drop 13
    let name := rest1.takeWhile (fun c => c ≠ '"')
    if name.isEmpty then none
    else
      match rest1.drop name.length with
      | '"' :: '>' :: rest3 =>
        match splitAtFirst "</param>".data rest3 with
        | some (value, rest4) => some (name, value, rest4)
        | none => none
      | _ => none
  else none

/-- `re.findall(r'<param name="([^"]+)">(.*?)</param>', xml, re.DOTALL)`:
scan left to right, emit each non-overlapping match, resume after its
end.  `fuel` bounds the recursion; with `fuel ≥ xml.length` it never
runs out, since each step consumes at least one character. -/
def extractParamsAux : Nat → List Char → List (List Char × List Char)
  | 0, _ => []
  | _ + 1, [] => []
  | fuel + 1, c :: t =>
    match tryParamAt (c :: t) with
    | some (name, value, rest) => (name, value) :: extractParamsAux fuel rest
    | none => extractParamsAux fuel t

/-- `QueryTranslator._parse_xml_response`: extract the type tag and all
`param` matches into a dict (`.strip()` applied to names and values;
later duplicates overwrite earlier values). -/
def parseXmlResponse (xml_response : String) : Intent :=
  let s := xml_response.data
  { search_type := String.mk (extractType s),
    params :=
      (extractParamsAux s.length s).foldl
        (fun acc nv =>
          dictSet (String.mk (pyStrip nv.1)) (String.mk (pyStrip nv.2)) acc)
        [] }

/-- `QueryTranslator._validate_and_process_params`: rewrite a
non-numeric `with_genres` value through the genre table when its
lower-casing is a key there; everything else passes through.  (The
`isinstance(genre_value, str)` guard is always true here: every parsed
value is a string.) -/
def validateAndProcessParams (parsed_result : Intent) : Intent :=
  match dictGet "with_genres" parsed_result.params with
  | none => parsed_result
  | some v =>
    if pyIsDigit v.data then parsed_result
    else
      match genreLookup (pyLower v.data) genre_map with
      | some gid =>
        ⟨parsed_result.search_type,
         dictSet "with_genres" (toString gid) parsed_result.params⟩
      | none => parsed_result

/-- Outcome of the one AI completion request of `_translate_with_ai`:
`failure` covers every raised exception (HTTP error, transport error,
missing response fields), `response t` a 2xx answer whose stripped
message content is `t`. -/
inductive AIOutcome where
  | failure
  | response (text : String)
deriving DecidableEq, Repr

/-- `QueryTranslator.translate_query`: skip to the rule fallback
without a credential, fall back on any AI failure, otherwise parse and
post-process the AI response.  (`_parse_xml_response` is total, so the
parse-error fallback inside `_translate_with_ai` is unreachable.) -/
def translateQuery (hasKey : Bool) (outcome : AIOutcome)
    (natural_query : String) : Intent :=
  if !hasKey then translateWithRules natural_query
  else
    match outcome with
    | .failure => translateWithRules natural_query
    | .response t => validateAndProcessParams (parseXmlResponse t)

/-! ### `tmdb_service.py` -/

/-- Outcome of the `/search/person` sub-call of `_get_person_id`:
`none` models a raised exception (caught inside `_get_person_id`),
`some rs` a 2xx answer whose `results` list carries, for each person
record, its `id` field (`none` when the field is absent). -/
def PersonNet : Type := String → Option (List (Option Int))

/-- `TMDBService._get_person_id`: the `id` of the first result, `none`
on error, no results, or a first result without an `id`. -/
def getPersonId (net : PersonNet) (person_name : String) : Option Int :=
  match net person_name with
  | none => none
  | some [] => none
  | some (r :: _) => r

/-- One person-resolution block of `TMDBService._discover_movies` (the
code repeats it verbatim for `with_cast` and `with_crew`): when `key`
is present, replace its value by the person id when one is found, and
delete the parameter otherwise.  Python truthiness: `if person_id:` is
false for `None` and for an id of `0`, so an id of `0` also deletes
the parameter. -/
def resolvePerson (net : PersonNet) (key : String)
    (params : List (String × String)) : List (String × String) :=
  match dictGet key params with
  | none => params
  | some name =>
    match getPersonId net name with
    | some n =>
      if n ≠ 0 then dictSet key (toString n) params else dictErase key params
    | none => dictErase key params

/-- The `sort_by` default of `_discover_movies`: popularity descending
when no explicit sort order is given. -/
def sortDefault (params : List (String × String)) : List (String × String) :=
  match dictGet "sort_by" params with
  | none => dictSet "sort_by" "popularity.desc" params
  | some _ => params

/-- The parameter-resolution stage of `TMDBService._discover_movies`,
run before the discover request is issued, in source order: `with_cast`
resolution, `with_crew` resolution, `sort_by` default. -/
def resolveDiscoverParams (net : PersonNet)
    (params : List (String × String)) : List (String × String) :=
  sortDefault (resolvePerson net "with_crew" (resolvePerson net "with_cast" params))

/-- One raw upstream movie object, with every field the formatter reads
(`movie.get(...)`; an absent JSON field is `none`).  Floats are exact
rationals. -/
structure Movie where
  id : Option Int
  title : Option String
  original_title : Option String
  overview : Option String
  release_date : Option String
  vote_average : Option ℚ
  vote_count : Option Int
  popularity : Option ℚ
  poster_path : Option String
  backdrop_path : Option String
  genre_ids : Option (List Int)
  adult : Option Bool
  original_language : Option String
deriving DecidableEq, Repr

/-- The normalized record `_format_movie` returns. -/
structure ResultRecord where
  id : Option Int
  title : String
  original_title : Option String
  overview : String
  release_date : String
  vote_average : ℚ
  vote_count : Int
  popularity : ℚ
  poster_path : Option String
  backdrop_path : Option String
  genre_ids : List Int
  genre_names : List String
  adult : Bool
  original_language : String
  poster_url : Option String
  backdrop_url : Option String
deriving DecidableEq, Repr

/-- Genre-map lookup, Python `genre_id in genre_map` /
`genre_map.get(genre_id, "")` on the id-to-name table. -/
def gmGet (k : Int) : List (Int × String) → Option String
  | [] => none
  | (k', v) :: t => if k' = k then some v else gmGet k t

/-- Python `round(x)` on an exact rational: round half to even
(CPython rounds the correctly-computed decimal this way). -/
def pyRoundHalfEven (x : ℚ) : ℤ :=
  if x - ⌊x⌋ < 1/2 then ⌊x⌋
  else if 1/2 < x - ⌊x⌋ then ⌊x⌋ + 1
  else if Even ⌊x⌋ then ⌊x⌋ else ⌊x⌋ + 1

/-- Python `round(x, 1)` on an exact rational. -/
def pyRound1 (x : ℚ) : ℚ := (pyRoundHalfEven (10 * x) : ℚ) / 10

/-- The image base URL of `TMDBService.__init__`. -/
def image_base_url : String := "https://image.tmdb.org/t/p"

/-- `TMDBService._format_movie`: one raw movie plus the genre map to a
normalized record.  A Python string is truthy exactly when nonempty, so
`if movie.get("poster_path")` is `some p` with `p ≠ ""`. -/
def formatMovie (movie : Movie) (genreMap : List (Int × String)) :
    ResultRecord :=
  let genre_ids := movie.genre_ids.getD []
  let genre_names :=
    (genre_ids.filter (fun i => (gmGet i genreMap).isSome)).map
      (fun i => (gmGet i genreMap).getD "")
  { id := movie.id
    title := movie.title.getD "Unknown Title"
    original_title := movie.original_title
    overview := movie.overview.getD ""
    release_date := movie.release_date.getD ""
    vote_average := pyRound1 (movie.vote_average.getD 0)
    vote_count := movie.vote_count.getD 0
    popularity := movie.popularity.getD 0
    poster_path := movie.poster_path
    backdrop_path := movie.backdrop_path
    genre_ids := genre_ids
    genre_names := genre_names
    adult := movie.adult.getD false
    original_language := movie.original_language.getD ""
    poster_url :=
      match movie.poster_path with
      | some p => if p ≠ "" then some (image_base_url ++ "/w500" ++ p) else none
      | none => none
    backdrop_url :=
      match movie.backdrop_path with
      | some p => if p ≠ "" then some (image_base_url ++ "/w1280" ++ p) else none
      | none => none }

/-! ### `main.py` -/

/-- The JSON body of a successful `/api/search` response. -/
structure SearchResponse where
  search_params : Intent
  movies : List ResultRecord
  total_count : Nat
  response_time_ms : Nat
deriving DecidableEq, Repr

/-- The `/api/search` handler of `main.py` after credential checks
(absence of either key is a 500), with the translated intent and the
outcome of `tmdb.search_movies` passed explicitly: an upstream
exception propagates as a 500 with its message, otherwise the body
carries the movie list and `total_count = len(movies)`. -/
def searchEndpoint (openrouter_api_key tmdb_api_key : Option String)
    (search_params : Intent) (tmdbOutcome : Except String (List ResultRecord))
    (response_time_ms : Nat) : Except String SearchResponse :=
  match openrouter_api_key with
  | none => .error "OpenRouter API key not configured"
  | some _ =>
    match tmdb_api_key with
    | none => .error "TMDB API key not configured"
    | some _ =>
      match tmdbOutcome with
      | .error e => .error e
      | .ok movies =>
        .ok { search_params := search_params, movies := movies,
              total_count := movies.length,
              response_time_ms := response_time_ms }

/-- A concrete raw movie record (rating 7.849999, poster present,
backdrop present but empty) used to instantiate formatting theorems. -/
def sampleMovie : Movie :=
  ⟨some 155, some "The Dark Knight", some "The Dark Knight", some "A hero",
   some "2008-07-16", some (7849999 / 1000000), some 32000, some (123 / 10),
   some "/abc.jpg", some "", some [18, 80], some false, some "en"⟩

/-! ### Dictionary lemmas -/

theorem dictGet_set_self (k v : String) :
    ∀ l : List (String × String), dictGet k (dictSet k v l) = some v
  | [] => by simp [dictSet, dictGet]
  | (a, b) :: t => by
    by_cases ha : a = k
    · simp [dictSet, dictGet, ha]
    · simp [dictSet, dictGet, ha, dictGet_set_self k v t]

theorem dictGet_set_ne {k k' : String} (h : k' ≠ k) (v : String) :
    ∀ l : List (String × String), dictGet k' (dictSet k v l) = dictGet k' l
  | [] => by
    have hkk : ¬(k = k') := fun hh => h hh.symm
    simp [dictSet, dictGet, hkk]
  | (a, b) :: t => by
    have hkk : ¬(k = k') := fun hh => h hh.symm
    by_cases ha : a = k
    · subst ha
      simp [dictSet, dictGet, hkk]
    · simp [dictSet, dictGet, ha, dictGet_set_ne h v t]

theorem dictGet_erase_self (k : String) :
    ∀ l : List (String × String), dictGet k (dictErase k l) = none
  | [] => by simp [dictErase, dictGet]
  | (a, b) :: t => by
    by_cases ha : a = k
    · simp [dictErase, dictGet, ha, dictGet_erase_self k t]
    · simp [dictErase, dictGet, ha, dictGet_erase_self k t]

theorem dictGet_erase_ne {k k' : String} (h : k' ≠ k) :
    ∀ l : List (String × String), dictGet k' (dictErase k l) = dictGet k' l
  | [] => by simp [dictErase]
  | (a, b) :: t => by
    by_cases ha : a = k
    · subst ha
      have hkk : ¬(a = k') := fun hh => h hh.symm
      simp [dictErase, dictGet, hkk, dictGet_erase_ne h t]
    · simp [dictErase, dictGet, ha, dictGet_erase_ne h t]

theorem rules_search_type (q : String) :
    (translateWithRules q).search_type = "discover" ∨
      (translateWithRules q).search_type = "search" := by
  simp only [translateWithRules]
  split
  · exact Or.inr rfl
  · split
    · split
      · exact Or.inl rfl
      · exact Or.inr rfl
    · exact Or.inl rfl

theorem validate_search_type (r : Intent) :
    (validateAndProcessParams r).search_type = r.search_type := by
  unfold validateAndProcessParams
  split
  · rfl
  · split
    · rfl
    · split <;> rfl

theorem resolvePerson_get_self (net : PersonNet) (key : String)
    (params : List (String × String)) :
    dictGet key (resolvePerson net key params) =
      match dictGet key params with
      | none => none
      | some name =>
        match getPersonId net name with
        | none => none
        | some n => if n ≠ 0 then some (toString n) else none := by
  unfold resolvePerson
  cases hc : dictGet key params with
  | none => exact hc
  | some name =>
    cases hp : getPersonId net name with
    | none =>
      simp only [hp]
      exact dictGet_erase_self key params
    | some n =>
      by_cases hn : n = 0
      · simp only [hp]
        simp [hn, dictGet_erase_self]
      · simp only [hp]
        simp [hn, dictGet_set_self]

theorem resolvePerson_get_ne (net : PersonNet) (key k : String) (h : k ≠ key)
    (params : List (String × String)) :
    dictGet k (resolvePerson net key params) = dictGet k params := by
  unfold resolvePerson
  split
  · rfl
  · split
    · split
      · exact dictGet_set_ne h _ _
      · exact dictGet_erase_ne h _
    · exact dictGet_erase_ne h _

theorem sortDefault_get_ne (k : String) (h : k ≠ "sort_by")
    (params : List (String × String)) :
    dictGet k (sortDefault params) = dictGet k params := by
  unfold sortDefault
  split
  · exact dictGet_set_ne h _ _
  · rfl

/-! ### Claim theorems -/

/-- C1: on the input `"find movie called The Dark Knight"` the rule
fallback does take the title short-circuit with search type `search`
and no other parameter, but the phrase list is scanned with
`"find movie"` first, so the extracted title keeps the word
`"called"`: the params are `{query: "called the dark knight"}`, not
the `{query: "the dark knight"}` the spec states.  This theorem
evaluates the code at the failing input. -/
theorem C1_title_shortcircuit_behavior :
    translateWithRules "find movie called The Dark Knight" =
      ⟨"search", [("query", "called the dark knight")]⟩ := by decide

/-- C3 counterexample: the query `"xyz"` is not an instance of the
claim's no-recognizable-token case — `"xyz"` survives the stop-word
filter (length 3 > 2), so the fallback returns a keyword title search,
not the default discover intent. -/
theorem C3_counterexample_xyz :
    translateWithRules "xyz" = ⟨"search", [("query", "xyz")]⟩ ∧
      translateWithRules "xyz" ≠
        ⟨"discover", [("sort_by", "popularity.desc"), ("vote_count.gte", "200")]⟩ := by
  decide

/-- C3 amended: for a query that triggers no detector and yields no
keyword (every word is a stop word or of length at most 2), of which
`"xy"` is an instance, the rule fallback returns the default intent
`{search_type: "discover", params: {sort_by: "popularity.desc",
vote_count.gte: "200"}}`. -/
theorem C3_default_intent_on_empty_keywords :
    translateWithRules "xy" =
      ⟨"discover", [("sort_by", "popularity.desc"), ("vote_count.gte", "200")]⟩ := by
  decide

/-- C6: with the AI path disabled (no credential), `translate_query` on
`"action movies from 2020"` returns exactly
`{search_type: "discover", params: {with_genres: "28",
primary_release_year: "2020"}}`, whatever the AI outcome would have
been. -/
theorem C6_action_movies_2020 :
    ∀ o : AIOutcome, translateQuery false o "action movies from 2020" =
      ⟨"discover", [("with_genres", "28"), ("primary_release_year", "2020")]⟩ := by
  intro o
  have h : translateWithRules "action movies from 2020" =
      ⟨"discover", [("with_genres", "28"), ("primary_release_year", "2020")]⟩ := by
    decide
  exact h

/-- C2 counterexample: a 2xx AI answer whose text carries an arbitrary
type tag is passed through, so `translate_query` can return a
`search_type` outside the `{"discover", "search"}` enum: on the
response `"<type>tv</type>"` it returns `search_type = "tv"`. -/
theorem C2_counterexample_type_passthrough :
    (translateQuery true (.response "<type>tv</type>") "movies").search_type ≠
        "discover" ∧
      (translateQuery true (.response "<type>tv</type>") "movies").search_type ≠
        "search" := by
  decide

/-- C2 amended: for every input string and every AI-provider outcome,
`translate_query` returns a result (it never raises: the embedding is
a total function, and `params` is a string mapping by construction);
its `search_type` is `"discover"` or `"search"` whenever the
rule-based fallback runs (no credential, or any AI failure), but on a
successfully parsed AI response the stripped content of the type tag
is passed through verbatim, so an arbitrary response text can produce
an arbitrary `search_type`. -/
theorem C2_translate_search_type (hasKey : Bool) (o : AIOutcome) (q : String) :
    (translateQuery hasKey o q).search_type = "discover" ∨
    (translateQuery hasKey o q).search_type = "search" ∨
    ∃ t, hasKey = true ∧ o = AIOutcome.response t ∧
      (translateQuery hasKey o q).search_type = (parseXmlResponse t).search_type := by
  cases hasKey with
  | false =>
    rcases rules_search_type q with h | h
    · exact Or.inl h
    · exact Or.inr (Or.inl h)
  | true =>
    cases o with
    | failure =>
      rcases rules_search_type q with h | h
      · exact Or.inl h
      · exact Or.inr (Or.inl h)
    | response t =>
      refine Or.inr (Or.inr ⟨t, rfl, rfl, ?_⟩)
      exact validate_search_type (parseXmlResponse t)

/-- C4: the AI-path post-processing rewrites only `with_genres`: a
non-numeric value whose lower-casing is a key of the static genre
table becomes that genre's id as a decimal string; any other
`with_genres` value, every other parameter, and the search type pass
through unchanged. -/
theorem C4_validate_only_rewrites_with_genres (st : String)
    (params : List (String × String)) :
    (validateAndProcessParams ⟨st, params⟩).search_type = st ∧
    (∀ k, k ≠ "with_genres" →
      dictGet k (validateAndProcessParams ⟨st, params⟩).params = dictGet k params) ∧
    dictGet "with_genres" (validateAndProcessParams ⟨st, params⟩).params =
      (dictGet "with_genres" params).map (fun v =>
        if pyIsDigit v.data then v
        else
          match genreLookup (pyLower v.data) genre_map with
          | some gid => toString gid
          | none => v) := by
  refine ⟨validate_search_type _, ?_, ?_⟩
  · intro k hk
    unfold validateAndProcessParams
    split
    · rfl
    · split
      · rfl
      · split
        · exact dictGet_set_ne hk _ _
        · rfl
  · unfold validateAndProcessParams
    cases hg : dictGet "with_genres" params with
    | none => simp [hg]
    | some v =>
      simp only [hg]
      by_cases hd : pyIsDigit v.data
      · simp [hd, hg]
      · cases hl : genreLookup (pyLower v.data) genre_map with
        | some gid => simp [hd, hl, dictGet_set_self]
        | none => simp [hd, hl, hg]

/-- C4 witness: on `{with_genres: "Action", primary_release_year:
"2020"}` the post-processing leaves `primary_release_year`
untouched. -/
theorem C4_validate_witness :
    dictGet "primary_release_year"
      (validateAndProcessParams
        ⟨"discover",
         [("with_genres", "Action"), ("primary_release_year", "2020")]⟩).params =
      some "2020" := by
  have h := (C4_validate_only_rewrites_with_genres "discover"
      [("with_genres", "Action"), ("primary_release_year", "2020")]).2.1
      "primary_release_year" (by decide)
  rw [h]
  decide

/-- C5 counterexample: a person-search sub-call that succeeds with a
first match whose id is `0` does not have its value replaced by
`"0"` — Python `if person_id:` treats `0` as false, so the parameter
is deleted instead. -/
theorem C5_counterexample_zero_id :
    dictGet "with_cast"
        (resolveDiscoverParams (fun _ => some [some 0]) [("with_cast", "john doe")]) =
        none ∧
      dictGet "with_cast"
        (resolveDiscoverParams (fun _ => some [some 0]) [("with_cast", "john doe")]) ≠
        some "0" := by
  decide

/-- C5 amended: on the discover path, a `with_cast`/`with_crew`
parameter whose person lookup fails, finds no usable match, or finds
an id of `0` (Python truthiness) is removed before the discover call —
the raw name is never sent — and a lookup that finds a nonzero id
replaces the value by that id as a decimal string; the lookup failure
itself is never propagated (the resolution is a total function of the
sub-call outcome). -/
theorem C5_person_resolution (net : PersonNet) (params : List (String × String)) :
    (∀ name, dictGet "with_cast" params = some name →
      getPersonId net name = none →
      dictGet "with_cast" (resolveDiscoverParams net params) = none) ∧
    (∀ name, dictGet "with_cast" params = some name →
      getPersonId net name = some 0 →
      dictGet "with_cast" (resolveDiscoverParams net params) = none) ∧
    (∀ name n, dictGet "with_cast" params = some name →
      getPersonId net name = some n → n ≠ 0 →
      dictGet "with_cast" (resolveDiscoverParams net params) = some (toString n)) ∧
    (∀ name, dictGet "with_crew" params = some name →
      getPersonId net name = none →
      dictGet "with_crew" (resolveDiscoverParams net params) = none) ∧
    (∀ name, dictGet "with_crew" params = some name →
      getPersonId net name = some 0 →
      dictGet "with_crew" (resolveDiscoverParams net params) = none) ∧
    (∀ name n, dictGet "with_crew" params = some name →
      getPersonId net name = some n → n ≠ 0 →
      dictGet "with_crew" (resolveDiscoverParams net params) = some (toString n)) := by
  have hcast : dictGet "with_cast" (resolveDiscoverParams net params) =
      match dictGet "with_cast" params with
      | none => none
      | some name =>
        match getPersonId net name with
        | none => none
        | some n => if n ≠ 0 then some (toString n) else none := by
    unfold resolveDiscoverParams
    rw [sortDefault_get_ne "with_cast" (by decide),
      resolvePerson_get_ne net "with_crew" "with_cast" (by decide),
      resolvePerson_get_self]
  have hcrew : dictGet "with_crew" (resolveDiscoverParams net params) =
      match dictGet "with_crew" params with
      | none => none
      | some name =>
        match getPersonId net name with
        | none => none
        | some n => if n ≠ 0 then some (toString n) else none := by
    unfold resolveDiscoverParams
    rw [sortDefault_get_ne "with_crew" (by decide), resolvePerson_get_self,
      resolvePerson_get_ne net "with_cast" "with_crew" (by decide)]
  refine ⟨?_, ?_, ?_, ?_, ?_, ?_⟩
  · intro name h1 h2
    rw [hcast, h1]
    simp only [h2]
  · intro name h1 h2
    rw [hcast, h1]
    simp only [h2]
    simp
  · intro name n h1 h2 h3
    rw [hcast, h1]
    simp only [h2]
    simp [h3]
  · intro name h1 h2
    rw [hcrew, h1]
    simp only [h2]
  · intro name h1 h2
    rw [hcrew, h1]
    simp only [h2]
    simp
  · intro name n h1 h2 h3
    rw [hcrew, h1]
    simp only [h2]
    simp [h3]

/-- C5 witness: a lookup that finds person id 287 rewrites
`with_cast` to `"287"`. -/
theorem C5_person_resolution_witness :
    dictGet "with_cast"
      (resolveDiscoverParams (fun _ => some [some 287]) [("with_cast", "brad pitt")]) =
      some (toString (287 : ℤ)) :=
  (C5_person_resolution (fun _ => some [some 287]) [("with_cast", "brad pitt")]).2.2.1
    "brad pitt" 287 (by decide) (by decide) (by decide)

theorem pyRoundHalfEven_sub_abs (x : ℚ) : |(pyRoundHalfEven x : ℚ) - x| ≤ 1 / 2 := by
  have h1 : (⌊x⌋ : ℚ) ≤ x := Int.floor_le x
  have h2 : x < ⌊x⌋ + 1 := Int.lt_floor_add_one x
  unfold pyRoundHalfEven
  split_ifs with ha hb hc <;>
    · rw [abs_le]
      push_cast
      constructor <;> linarith

theorem pyRound1_sub_abs (x : ℚ) : |pyRound1 x - x| ≤ 1 / 20 := by
  have h := pyRoundHalfEven_sub_abs (10 * x)
  unfold pyRound1
  rw [abs_le] at h ⊢
  obtain ⟨ha, hb⟩ := h
  constructor <;> linarith

theorem filter_isSome_map_getD (gm : List (Int × String)) :
    ∀ l : List Int,
      (l.filter (fun i => (gmGet i gm).isSome)).map (fun i => (gmGet i gm).getD "") =
        l.filterMap (fun i => gmGet i gm)
  | [] => rfl
  | i :: t => by
    cases hg : gmGet i gm with
    | none => simp [hg, filter_isSome_map_getD gm t]
    | some s => simp [hg, filter_isSome_map_getD gm t]

theorem filterMap_gmGet_nil (l : List Int) :
    l.filterMap (fun i => gmGet i []) = [] := by
  induction l with
  | nil => rfl
  | cons i t ih => simp [gmGet, ih]

/-- C7: the formatted record's image URLs are null whenever the
corresponding path is absent or empty (Python falsiness of `None` and
`""`), and are the absolute URL built from the base URL, the size
segment and the path otherwise — a missing path never yields a
malformed URL string. -/
theorem C7_image_urls (m : Movie) (gm : List (Int × String)) :
    ((m.poster_path = none ∨ m.poster_path = some "") →
      (formatMovie m gm).poster_url = none) ∧
    (∀ p, m.poster_path = some p → p ≠ "" →
      (formatMovie m gm).poster_url =
        some ("https://image.tmdb.org/t/p" ++ "/w500" ++ p)) ∧
    ((m.backdrop_path = none ∨ m.backdrop_path = some "") →
      (formatMovie m gm).backdrop_url = none) ∧
    (∀ p, m.backdrop_path = some p → p ≠ "" →
      (formatMovie m gm).backdrop_url =
        some ("https://image.tmdb.org/t/p" ++ "/w1280" ++ p)) := by
  refine ⟨?_, ?_, ?_, ?_⟩
  · rintro (h | h) <;> simp [formatMovie, h]
  · intro p hp hne
    simp [formatMovie, hp, hne, image_base_url]
  · rintro (h | h) <;> simp [formatMovie, h]
  · intro p hp hne
    simp [formatMovie, hp, hne, image_base_url]

/-- C7 witness: on the sample movie (poster `"/abc.jpg"`, backdrop
present but empty) the poster URL is absolute and the backdrop URL is
null. -/
theorem C7_image_urls_witness :
    (formatMovie sampleMovie []).poster_url =
        some ("https://image.tmdb.org/t/p" ++ "/w500" ++ "/abc.jpg") ∧
      (formatMovie sampleMovie []).backdrop_url = none :=
  ⟨(C7_image_urls sampleMovie []).2.1 "/abc.jpg" rfl (by decide),
   (C7_image_urls sampleMovie []).2.2.1 (Or.inr rfl)⟩

/-- C8: the formatted `vote_average` is the raw value (defaulting to 0
when absent) rounded to one decimal place — it is an integer multiple
of one tenth within 1/20 of the raw value — and in particular a raw
average of 7.849999 formats to 7.8. -/
theorem C8_vote_average_rounding :
    (∀ (m : Movie) (gm : List (Int × String)),
      |(formatMovie m gm).vote_average - m.vote_average.getD 0| ≤ 1 / 20 ∧
      ∃ k : ℤ, (formatMovie m gm).vote_average = (k : ℚ) / 10) ∧
    (formatMovie sampleMovie []).vote_average = 39 / 5 := by
  constructor
  · intro m gm
    constructor
    · have hv : (formatMovie m gm).vote_average =
          pyRound1 (m.vote_average.getD 0) := rfl
      rw [hv]
      exact pyRound1_sub_abs _
    · exact ⟨pyRoundHalfEven (10 * m.vote_average.getD 0), rfl⟩
  · show pyRound1 (7849999 / 1000000) = 39 / 5
    norm_num [pyRound1, pyRoundHalfEven]

/-- C9: the formatted `genre_names` list holds, in order, exactly the
names of the `genre_ids` entries that are keys of the genre map; ids
absent from the map are dropped rather than rendered as blanks (so the
list can be shorter than `genre_ids`), and with an empty map
`genre_names` is empty while `genre_ids` passes through unchanged. -/
theorem C9_genre_names (m : Movie) (gm : List (Int × String)) :
    (formatMovie m gm).genre_names =
      (m.genre_ids.getD []).filterMap (fun i => gmGet i gm) ∧
    (formatMovie m gm).genre_ids = m.genre_ids.getD [] ∧
    (formatMovie m gm).genre_names.length ≤ (formatMovie m gm).genre_ids.length ∧
    (formatMovie m []).genre_names = [] := by
  have h1 : ∀ g : List (Int × String), (formatMovie m g).genre_names =
      (m.genre_ids.getD []).filterMap (fun i => gmGet i g) := by
    intro g
    exact filter_isSome_map_getD g (m.genre_ids.getD [])
  refine ⟨h1 gm, rfl, ?_, ?_⟩
  · rw [h1 gm]
    exact List.length_filterMap_le _ _
  · rw [h1 []]
    exact filterMap_gmGet_nil _

/-- C10: every successful `/api/search` response carries a
`total_count` equal to the length of its `movies` list. -/
theorem C10_total_count (ok tk : Option String) (sp : Intent)
    (out : Except String (List ResultRecord)) (ms : Nat) (r : SearchResponse)
    (h : searchEndpoint ok tk sp out ms = .ok r) :
    r.total_count = r.movies.length := by
  cases ok with
  | none => exact absurd h (by simp [searchEndpoint])
  | some a =>
    cases tk with
    | none => exact absurd h (by simp [searchEndpoint])
    | some b =>
      cases out with
      | error e => exact absurd h (by simp [searchEndpoint])
      | ok movies =>
        simp only [searchEndpoint, Except.ok.injEq] at h
        subst h
        rfl

/-- C10 witness: a successful response with an empty movie list has
`total_count = 0 = length`. -/
theorem C10_total_count_witness :
    (⟨⟨"search", []⟩, [], 0, 5⟩ : SearchResponse).total_count =
      (⟨⟨"search", []⟩, [], 0, 5⟩ : SearchResponse).movies.length :=
  C10_total_count (some "a") (some "b") ⟨"search", []⟩ (.ok []) 5
    ⟨⟨"search", []⟩, [], 0, 5⟩ rfl

end MovieSearch
